import Mathlib

/-!
Shallow embedding of the FoodHub order lifecycle (Express/Mongoose backend).

Sources embedded here:
- Backend/models/Order.js     : order schema, pre-save timeline hook, canBeCancelled
- Backend/models/Restaurant.js: isCurrentlyOpen, minimumOrder, deliveryFee
- Backend/models/MenuItem.js  : discountedPrice, calculatePrice
- Backend/routes/orders.js    : create order, status update, assign delivery,
                                delivery status, cancel
- payments router (unnamed)   : refund endpoint, Stripe webhook handlers
- admin router (unnamed)      : admin status update

Money is modelled as exact rationals (the JS source uses Number arithmetic on
decimal dollar amounts); object ids are modelled as naturals; timestamps as
naturals.  Fallible handlers return Except; a JS exception caught by the
surrounding try/catch is modelled as a serverError result.
-/

/-- The order status enumeration of the order schema. -/
inductive OrderStatus where
  | pending
  | confirmed
  | preparing
  | ready_for_pickup
  | picked_up
  | on_the_way
  | delivered
  | cancelled
  | refunded
deriving DecidableEq, Repr

/-- The JS string stored for each status value. -/
def OrderStatus.jsName : OrderStatus → String
  | .pending => "pending"
  | .confirmed => "confirmed"
  | .preparing => "preparing"
  | .ready_for_pickup => "ready_for_pickup"
  | .picked_up => "picked_up"
  | .on_the_way => "on_the_way"
  | .delivered => "delivered"
  | .cancelled => "cancelled"
  | .refunded => "refunded"

/-- The payment status enumeration of the payment sub-schema. -/
inductive PaymentStatus where
  | pending
  | processing
  | completed
  | failed
  | refunded
deriving DecidableEq, Repr

/-- User roles checked by the authorize middleware. -/
inductive Role where
  | customer
  | restaurant
  | delivery
  | admin
deriving DecidableEq, Repr

/-- Order type enumeration. -/
inductive OrderType where
  | delivery
  | pickup
deriving DecidableEq, Repr

/-- One timeline entry (status is stored as a raw string in the schema;
the assign-delivery route pushes the non-status string "assigned_delivery"). -/
structure TimelineEntry where
  status : String
  message : String
  timestamp : Nat
  updatedBy : Option Nat
deriving DecidableEq, Repr

/-- The payment sub-record of an order. -/
structure Payment where
  method : String
  status : PaymentStatus
  stripePaymentIntentId : Option String
  stripeChargeId : Option String
  paidAt : Option Nat
  refundedAt : Option Nat
  refundAmount : Option ℚ
deriving DecidableEq, Repr

/-- The delivery-tracking sub-record (observed fields only). -/
structure DeliveryTracking where
  status : String
  deliveryPerson : Option Nat
  estimatedDeliveryTime : Option Nat
  actualDeliveryTime : Option Nat
  currentLocation : Option (ℚ × ℚ × Nat)
  deliveryNotes : Option String
  deliveryPhoto : Option String
deriving DecidableEq, Repr

/-- A customization choice sent with a line item: a customization name and
the names of the selected options. -/
structure ReqCustomization where
  name : String
  selectedOptions : List String
deriving DecidableEq, Repr

/-- A denormalized line item stored on the order. -/
structure OrderItem where
  menuItem : Nat
  name : String
  price : ℚ
  quantity : Nat
  customizations : List ReqCustomization
  specialInstructions : String
  subtotal : ℚ
deriving DecidableEq, Repr

/-- The pricing sub-record of an order. -/
structure Pricing where
  subtotal : ℚ
  tax : ℚ
  deliveryFee : ℚ
  serviceFee : ℚ
  tip : ℚ
  discount : ℚ
  total : ℚ
deriving DecidableEq, Repr

/-- Delivery address (only the coordinates are consulted by the handlers). -/
structure Address where
  lat : ℚ
  lng : ℚ
deriving DecidableEq, Repr

/-- The order document (fields the verified handlers touch). -/
structure Order where
  customer : Nat
  restaurant : Nat
  items : List OrderItem
  status : OrderStatus
  orderType : OrderType
  deliveryAddress : Option Address
  pricing : Pricing
  payment : Payment
  deliveryTracking : Option DeliveryTracking
  timeline : List TimelineEntry
  estimatedPreparationTime : Nat
  estimatedDeliveryTime : Option Nat
  actualDeliveryTime : Option Nat
  customerNotes : Option String
  restaurantNotes : Option String
  promoCode : Option String
  isScheduled : Bool
  scheduledFor : Option Nat
  cancellationReason : Option String
  cancelledBy : Option Nat
  cancelledAt : Option Nat
  refundReason : Option String
  refundedBy : Option Nat
deriving DecidableEq, Repr

/-- The acting authenticated user of a request. -/
structure Actor where
  id : Nat
  role : Role
  restaurantId : Option Nat
deriving DecidableEq, Repr

/-- Error outcomes of a request handler.  A JS exception caught by the
handler's try/catch surfaces as serverError (HTTP 500). -/
inductive ApiError where
  | validationFailed
  | notFound (msg : String)
  | accessDenied
  | badRequest (msg : String)
  | serverError
deriving DecidableEq, Repr

/-- The timeline entry pushed by the orderSchema pre-save hook when the
status path is modified on a non-new document (Order.js lines 192-202);
the hook sets no updatedBy. -/
def hookTimelineEntry (s : OrderStatus) (now : Nat) : TimelineEntry :=
  { status := s.jsName
    message := "Order status changed to " ++ s.jsName
    timestamp := now
    updatedBy := none }

/-- Mongoose save of an already-persisted order document: the pre-save hook
appends one timeline entry iff the status differs from the value loaded
from the store (Mongoose marks a primitive path modified only when it is
set to a different value). -/
def saveOrder (origStatus : OrderStatus) (now : Nat) (o : Order) : Order :=
  if o.status = origStatus then o
  else { o with timeline := o.timeline ++ [hookTimelineEntry o.status now] }

/-- Order.js canBeCancelled: status not in the non-cancellable list. -/
def nonCancellableStatuses : List OrderStatus :=
  [.picked_up, .on_the_way, .delivered, .cancelled, .refunded]

/-- Order schema method canBeCancelled. -/
def Order.canBeCancelled (o : Order) : Bool :=
  !(nonCancellableStatuses.contains o.status)

/-- Target statuses accepted by PUT /api/orders/:id/status
(express-validator isIn list). -/
def restaurantStatusTargets : List OrderStatus :=
  [.confirmed, .preparing, .ready_for_pickup, .cancelled]

/-- PUT /api/orders/:id/status (restaurant/admin).  ownedRestaurant is the
result of Restaurant.findOne on the acting user (consulted only for the
restaurant role).  The handler sets the status, optionally the notes,
pushes one timeline entry itself, then saves (which fires the hook). -/
def updateOrderStatus (actor : Actor) (ownedRestaurant : Option Nat)
    (target : OrderStatus) (notes : Option String)
    (order : Option Order) (now : Nat) : Except ApiError Order :=
  if ¬ (actor.role = .restaurant ∨ actor.role = .admin) then .error .accessDenied
  else if ¬ (target ∈ restaurantStatusTargets) then .error .validationFailed
  else
    match order with
    | none => .error (.notFound "Order not found")
    | some o =>
      if actor.role = .restaurant ∧
          ¬ (∃ rid, ownedRestaurant = some rid ∧ o.restaurant = rid) then
        .error .accessDenied
      else
        let o1 : Order := { o with
          status := target
          restaurantNotes := match notes with
            | some n => some n
            | none => o.restaurantNotes }
        let o2 : Order := { o1 with timeline := o1.timeline ++
          [{ status := target.jsName
             message := "Order status updated to " ++ target.jsName
             timestamp := now
             updatedBy := some actor.id }] }
        .ok (saveOrder o.status now o2)

/-- PUT /api/admin/orders/:id/status (admin router; the authorize middleware
already restricted the caller to admins).  Every one of the nine statuses
passes validation; the current status is never consulted. -/
def adminUpdateOrderStatus (adminId : Nat) (target : OrderStatus)
    (notes : Option String) (order : Option Order) (now : Nat) :
    Except ApiError Order :=
  match order with
  | none => .error (.notFound "Order not found")
  | some o =>
    let o1 : Order := { o with
      status := target
      restaurantNotes := match notes with
        | some n => some n
        | none => o.restaurantNotes }
    let o2 : Order := { o1 with timeline := o1.timeline ++
      [{ status := target.jsName
         message := "Order status updated to " ++ target.jsName ++ " by admin"
         timestamp := now
         updatedBy := some adminId }] }
    .ok (saveOrder o.status now o2)

/-- Target statuses accepted by PUT /api/orders/:id/delivery-status. -/
def deliveryStatusTargets : List OrderStatus :=
  [.picked_up, .on_the_way, .delivered]

/-- PUT /api/orders/:id/delivery-status (delivery role).  Reading
deliveryTracking.deliveryPerson on an order without tracking data raises a
TypeError, caught as a 500. -/
def updateDeliveryStatus (actor : Actor) (target : OrderStatus)
    (location : Option (ℚ × ℚ)) (notes : Option String)
    (photo : Option String) (order : Option Order) (now : Nat) :
    Except ApiError Order :=
  if ¬ actor.role = .delivery then .error .accessDenied
  else if ¬ (target ∈ deliveryStatusTargets) then .error .validationFailed
  else
    match order with
    | none => .error (.notFound "Order not found")
    | some o =>
      match o.deliveryTracking with
      | none => .error .serverError
      | some dt =>
        match dt.deliveryPerson with
        | none => .error .serverError
        | some dp =>
          if ¬ dp = actor.id then .error .accessDenied
          else
            let dt1 : DeliveryTracking := { dt with
              status := target.jsName
              currentLocation := match location with
                | some l => some (l.1, l.2, now)
                | none => dt.currentLocation
              deliveryNotes := match notes with
                | some n => some n
                | none => dt.deliveryNotes
              deliveryPhoto := match photo with
                | some p => some p
                | none => dt.deliveryPhoto
              actualDeliveryTime :=
                if target = .delivered then some now else dt.actualDeliveryTime }
            let o1 : Order := { o with
              deliveryTracking := some dt1
              status := target
              actualDeliveryTime :=
                if target = .delivered then some now else o.actualDeliveryTime }
            let o2 : Order := { o1 with timeline := o1.timeline ++
              [{ status := target.jsName
                 message := "Delivery status: " ++ target.jsName
                 timestamp := now
                 updatedBy := some actor.id }] }
            .ok (saveOrder o.status now o2)

/-- PUT /api/orders/:id/assign-delivery (admin/delivery).  Requires a
delivery order whose status is exactly ready_for_pickup; assigning into an
absent deliveryTracking subdocument raises, caught as a 500. -/
def assignDelivery (actor : Actor) (order : Option Order) (now : Nat) :
    Except ApiError Order :=
  if ¬ (actor.role = .admin ∨ actor.role = .delivery) then .error .accessDenied
  else
    match order with
    | none => .error (.notFound "Order not found")
    | some o =>
      if ¬ o.orderType = .delivery then
        .error (.badRequest "This is not a delivery order")
      else if ¬ o.status = .ready_for_pickup then
        .error (.badRequest "Order is not ready for pickup")
      else
        match o.deliveryTracking with
        | none => .error .serverError
        | some dt =>
          let dt1 : DeliveryTracking := { dt with
            deliveryPerson := some actor.id
            status := "assigned"
            estimatedDeliveryTime := some (now + 20) }
          let o1 : Order := { o with
            deliveryTracking := some dt1
            status := .picked_up }
          let o2 : Order := { o1 with timeline := o1.timeline ++
            [{ status := "assigned_delivery"
               message := "Delivery person assigned"
               timestamp := now
               updatedBy := some actor.id }] }
          .ok (saveOrder o.status now o2)

/-- PUT /api/orders/:id/cancel.  The pair returned is (response, final
stored state of the looked-up order); each early rejection happens before
any mutation, so it returns the state as loaded. -/
def cancelOrder (actor : Actor) (reason : String)
    (order : Option Order) (now : Nat) :
    Except ApiError Unit × Option Order :=
  if reason = "" then (.error .validationFailed, order)
  else
    match order with
    | none => (.error (.notFound "Order not found"), none)
    | some o =>
      if ¬ (o.customer = actor.id ∨ actor.role = .admin ∨
            (actor.role = .restaurant ∧ actor.restaurantId = some o.restaurant)) then
        (.error .accessDenied, some o)
      else if ¬ o.canBeCancelled = true then
        (.error (.badRequest "Order cannot be cancelled at this stage"), some o)
      else
        let o1 : Order := { o with
          status := .cancelled
          cancellationReason := some reason
          cancelledBy := some actor.id
          cancelledAt := some now }
        let o2 : Order := { o1 with timeline := o1.timeline ++
          [{ status := "cancelled"
             message := "Order cancelled: " ++ reason
             timestamp := now
             updatedBy := some actor.id }] }
        (.ok (), some (saveOrder o.status now o2))

/-- Outcome of the external stripe.refunds.create call: an error is caught
by the handler's try/catch (500); success carries refund.amount converted
back to dollars. -/
def stripeRefundOk (r : Except Unit ℚ) : Prop := r.isOk = true

/-- POST /api/payments/refund.  The pair returned is (response, final
stored state of the looked-up order); each early rejection happens before
any mutation. -/
def refundOrder (actor : Actor) (reason : Option String)
    (stripeRefund : Except Unit ℚ) (order : Option Order) (now : Nat) :
    Except ApiError Unit × Option Order :=
  match order with
  | none => (.error (.notFound "Order not found"), none)
  | some o =>
    if ¬ (o.customer = actor.id ∨ actor.role = .admin) then
      (.error .accessDenied, some o)
    else if ¬ o.payment.status = .completed then
      (.error (.badRequest "Cannot refund unpaid order"), some o)
    else
      match stripeRefund with
      | .error _ => (.error .serverError, some o)
      | .ok refundAmount =>
        let o1 : Order := { o with
          payment := { o.payment with
            status := .refunded
            refundedAt := some now
            refundAmount := some refundAmount }
          status := .refunded
          refundReason := reason
          refundedBy := some actor.id }
        let o2 : Order := { o1 with timeline := o1.timeline ++
          [{ status := "refunded"
             message := "Refund processed"
             timestamp := now
             updatedBy := some actor.id }] }
        (.ok (), some (saveOrder o.status now o2))

/-- Whether an order is the one the webhook reconciles, i.e. its stored
payment.stripePaymentIntentId equals the event's intent id. -/
def paymentIntentMatches (pid : String) (o : Order) : Bool :=
  o.payment.stripePaymentIntentId == some pid

/-- Order.findOne followed by save: apply f to the first order matched by
p, leaving every other document untouched. -/
def updateFirst (p : Order → Bool) (f : Order → Order) : List Order → List Order
  | [] => []
  | o :: rest => if p o then f o :: rest else o :: updateFirst p f rest

/-- Body of handlePaymentSuccess applied to the matched order: mark the
payment completed, record paidAt and the charge id, promote a pending
order to confirmed, then save. -/
def applyPaymentSuccess (chargeId : Option String) (now : Nat) (o : Order) : Order :=
  let o1 : Order := { o with payment := { o.payment with
    status := .completed
    paidAt := some now
    stripeChargeId := chargeId } }
  let o2 : Order := if o1.status = .pending then { o1 with status := .confirmed } else o1
  saveOrder o.status now o2

/-- Webhook handler for payment_intent.succeeded: look the order up by the
stored intent id and apply the success mutation; no-op when no order
matches. -/
def handlePaymentSuccess (pid : String) (chargeId : Option String) (now : Nat)
    (db : List Order) : List Order :=
  updateFirst (paymentIntentMatches pid) (applyPaymentSuccess chargeId now) db

/-- Body of handlePaymentFailure applied to the matched order. -/
def applyPaymentFailure (now : Nat) (o : Order) : Order :=
  let o1 : Order := { o with
    payment := { o.payment with status := .failed }
    status := .cancelled
    cancellationReason := some "Payment failed" }
  saveOrder o.status now o1

/-- Webhook handler for payment_intent.payment_failed. -/
def handlePaymentFailure (pid : String) (now : Nat) (db : List Order) : List Order :=
  updateFirst (paymentIntentMatches pid) (applyPaymentFailure now) db

/-- Body of handleRefundCreated applied to the matched order: it sets the
refunded payment state unconditionally, with no check of the prior
payment status. -/
def applyRefundCreated (amount : ℚ) (now : Nat) (o : Order) : Order :=
  let o1 : Order := { o with
    payment := { o.payment with
      status := .refunded
      refundedAt := some now
      refundAmount := some amount }
    status := .refunded }
  saveOrder o.status now o1

/-- Webhook handler for refund.created. -/
def handleRefundCreated (pid : String) (amount : ℚ) (now : Nat)
    (db : List Order) : List Order :=
  updateFirst (paymentIntentMatches pid) (applyRefundCreated amount now) db

/-- One option of a menu-item customization group. -/
structure CustomizationOption where
  name : String
  price : ℚ
deriving DecidableEq, Repr

/-- A customization group of a menu item. -/
structure Customization where
  name : String
  options : List CustomizationOption
deriving DecidableEq, Repr

/-- The menu-item document (fields consulted at checkout). -/
structure MenuItem where
  id : Nat
  restaurant : Nat
  name : String
  price : ℚ
  discountPercentage : ℚ
  customizations : List Customization
  isAvailable : Bool
  preparationTime : Nat
deriving DecidableEq, Repr

/-- MenuItem.js virtual discountedPrice. -/
def MenuItem.discountedPrice (m : MenuItem) : ℚ :=
  if m.discountPercentage > 0 then m.price * (1 - m.discountPercentage / 100)
  else m.price

/-- JS Math.round(q * 100) / 100, i.e. rounding to 2 decimal places with
halves toward positive infinity, exactly as Lean's round does. -/
def round2 (q : ℚ) : ℚ := ((round (q * 100) : ℤ) : ℚ) / 100

/-- MenuItem.js calculatePrice: start from the discounted price, add the
price of every selected option that resolves against the item's
customization groups (unknown names are skipped), round to 2 decimals. -/
def MenuItem.calculatePrice (m : MenuItem) (reqs : List ReqCustomization) : ℚ :=
  let totalPrice := reqs.foldl (fun acc c =>
    match m.customizations.find? (fun cfg => cfg.name == c.name) with
    | some cfg => c.selectedOptions.foldl (fun acc2 optName =>
        match cfg.options.find? (fun opt => opt.name == optName) with
        | some opt => acc2 + opt.price
        | none => acc2) acc
    | none => acc) m.discountedPrice
  round2 totalPrice

/-- One operating-hours record of a restaurant (field names open/close are
renamed openTime/closeTime because open is a Lean keyword). -/
structure OperatingHours where
  day : String
  openTime : String
  closeTime : String
  isClosed : Bool
deriving DecidableEq, Repr

/-- The restaurant document (fields consulted at checkout). -/
structure Restaurant where
  id : Nat
  owner : Nat
  deliveryFee : ℚ
  minimumOrder : ℚ
  deliveryRadius : ℚ
  operatingHours : List OperatingHours
  isActive : Bool
  isOpen : Bool
deriving DecidableEq, Repr

/-- A JS runtime error. -/
inductive JsError where
  | typeError
deriving DecidableEq, Repr

/-- Restaurant.js isCurrentlyOpen computes the current weekday with
now.toLocaleLowerCase().  JavaScript Date objects have no
toLocaleLowerCase method (it exists only on String, as
toLocaleLowerCase), so the property access yields undefined and the call
raises a TypeError.  The method lookup is therefore modelled as none. -/
def dateToLocaleLowerCase : Option String := none

/-- Restaurant.js isCurrentlyOpen.  currentTime is the HH:MM string that
now.toTimeString().substring(0, 5) would produce.  The guard on
isOpen/isActive returns before any Date call; every execution that gets
past it raises the TypeError modelled above. -/
def Restaurant.isCurrentlyOpen (r : Restaurant) (currentTime : String) :
    Except JsError Bool :=
  if ¬ r.isOpen = true ∨ ¬ r.isActive = true then .ok false
  else
    match dateToLocaleLowerCase with
    | none => .error .typeError
    | some localeString =>
      let currentDay := localeString.take 3
      match r.operatingHours.find? (fun h => h.day.startsWith currentDay) with
      | none => .ok false
      | some todayHours =>
        if todayHours.isClosed then .ok false
        else .ok (decide (todayHours.openTime ≤ currentTime ∧
                          currentTime ≤ todayHours.closeTime))

/-- A line item as sent in the create-order request body. -/
structure OrderItemRequest where
  menuItem : Nat
  name : Option String
  quantity : Nat
  customizations : List ReqCustomization
  specialInstructions : Option String
deriving DecidableEq, Repr

/-- MenuItem.findById against the catalog. -/
def findMenuItem (catalog : List MenuItem) (mid : Nat) : Option MenuItem :=
  catalog.find? (fun m => m.id == mid)

/-- The item-validation loop of POST /api/orders: look each line item up,
reject unavailable or foreign items, snapshot name/price, and accumulate
the subtotal and the maximum preparation time.  The source accumulates
with mutable variables over the same sequence of checks; the recursion
below performs the identical per-item computation and fails at the same
first offending item. -/
def validateItems (catalog : List MenuItem) (restaurantId : Nat) :
    List OrderItemRequest → Except ApiError (List OrderItem × ℚ × Nat)
  | [] => .ok ([], 0, 0)
  | item :: rest =>
    match findMenuItem catalog item.menuItem with
    | none => .error (.badRequest "Menu item is not available")
    | some menuItem =>
      if ¬ menuItem.isAvailable = true then
        .error (.badRequest "Menu item is not available")
      else if ¬ menuItem.restaurant = restaurantId then
        .error (.badRequest "Menu item does not belong to this restaurant")
      else
        let itemPrice := menuItem.calculatePrice item.customizations
        let itemSubtotal := itemPrice * (item.quantity : ℚ)
        match validateItems catalog restaurantId rest with
        | .error e => .error e
        | .ok (vitems, subtotal, prepTime) =>
          .ok ({ menuItem := menuItem.id
                 name := menuItem.name
                 price := itemPrice
                 quantity := item.quantity
                 customizations := item.customizations
                 specialInstructions := item.specialInstructions.getD ""
                 subtotal := itemSubtotal } :: vitems,
               itemSubtotal + subtotal,
               Nat.max menuItem.preparationTime prepTime)

/-- Order.js calculateEstimatedDeliveryTime, in minutes from now: the
preparation time (30 when the stored value is falsy, i.e. 0) plus 20
minutes for delivery orders. -/
def calculateEstimatedDeliveryTime (ot : OrderType)
    (estimatedPreparationTime : Nat) (now : Nat) : Nat :=
  let preparationTime :=
    if estimatedPreparationTime = 0 then 30 else estimatedPreparationTime
  let deliveryTime := if ot = .delivery then 20 else 0
  now + preparationTime + deliveryTime

/-- POST /api/orders from the item-validation loop on (the part of the
handler reached only after the restaurant, open-hours and delivery-radius
gates pass): validates items, applies the minimum-order gate, computes the
pricing, and builds the pending order document. -/
def createOrderAfterGates (r : Restaurant) (catalog : List MenuItem)
    (customerId : Nat) (items : List OrderItemRequest) (orderType : OrderType)
    (deliveryAddress : Option Address) (customerNotes : Option String)
    (scheduledFor : Option Nat) (promoCode : Option String) (now : Nat) :
    Except ApiError Order :=
  match validateItems catalog r.id items with
  | .error e => .error e
  | .ok (validatedItems, subtotal, totalPreparationTime) =>
    if subtotal < r.minimumOrder then
      .error (.badRequest ("Minimum order amount is $" ++ toString r.minimumOrder))
    else
      let tax := subtotal * (8 / 100 : ℚ)
      let deliveryFee := if orderType = .delivery then r.deliveryFee else 0
      let serviceFee := subtotal * (2 / 100 : ℚ)
      let discount :=
        if promoCode = some "WELCOME10" then subtotal * (10 / 100 : ℚ) else 0
      let total := subtotal + tax + deliveryFee + serviceFee - discount
      .ok { customer := customerId
            restaurant := r.id
            items := validatedItems
            status := .pending
            orderType := orderType
            deliveryAddress :=
              if orderType = .delivery then deliveryAddress else none
            pricing := { subtotal := subtotal
                         tax := tax
                         deliveryFee := deliveryFee
                         serviceFee := serviceFee
                         tip := 0
                         discount := discount
                         total := total }
            payment := { method := "card"
                         status := .pending
                         stripePaymentIntentId := none
                         stripeChargeId := none
                         paidAt := none
                         refundedAt := none
                         refundAmount := none }
            deliveryTracking := none
            timeline := []
            estimatedPreparationTime := totalPreparationTime
            estimatedDeliveryTime :=
              some (calculateEstimatedDeliveryTime orderType totalPreparationTime now)
            actualDeliveryTime := none
            customerNotes := customerNotes
            restaurantNotes := none
            promoCode := promoCode
            isScheduled := scheduledFor.isSome
            scheduledFor := scheduledFor
            cancellationReason := none
            cancelledBy := none
            cancelledAt := none
            refundReason := none
            refundedBy := none }

/-- POST /api/orders, gates included.  restaurantDb is Restaurant.findById;
deliversToOracle abstracts Restaurant.deliversTo (whose great-circle
computation uses transcendental functions and is not consulted by any
claim); currentTime is the HH:MM clock string.  An exception escaping
isCurrentlyOpen is caught by the route's try/catch as a 500. -/
def createOrder (restaurantDb : Option Restaurant) (catalog : List MenuItem)
    (customerId : Nat) (items : List OrderItemRequest) (orderType : OrderType)
    (deliveryAddress : Option Address) (deliversToOracle : ℚ → ℚ → Bool)
    (currentTime : String) (customerNotes : Option String)
    (scheduledFor : Option Nat) (promoCode : Option String) (now : Nat) :
    Except ApiError Order :=
  if items = [] then .error .validationFailed
  else
    match restaurantDb with
    | none => .error (.notFound "Restaurant not found or inactive")
    | some r =>
      if ¬ r.isActive = true then
        .error (.notFound "Restaurant not found or inactive")
      else
        match r.isCurrentlyOpen currentTime with
        | .error _ => .error .serverError
        | .ok false => .error (.badRequest "Restaurant is currently closed")
        | .ok true =>
          if orderType = .delivery then
            match deliveryAddress with
            | none =>
              .error (.badRequest "Valid delivery address with coordinates is required")
            | some addr =>
              if ¬ deliversToOracle addr.lat addr.lng = true then
                .error (.badRequest "Restaurant does not deliver to this location")
              else
                createOrderAfterGates r catalog customerId items orderType
                  (some addr) customerNotes scheduledFor promoCode now
          else
            createOrderAfterGates r catalog customerId items orderType
              deliveryAddress customerNotes scheduledFor promoCode now

/-- An empty payment sub-record as created at checkout. -/
def basePayment : Payment :=
  { method := "card", status := .pending, stripePaymentIntentId := none
    stripeChargeId := none, paidAt := none, refundedAt := none
    refundAmount := none }

/-- A zero pricing record for fixtures. -/
def basePricing : Pricing :=
  { subtotal := 0, tax := 0, deliveryFee := 0, serviceFee := 0, tip := 0
    discount := 0, total := 0 }

/-- A concrete order fixture in the given status, with one timeline entry. -/
def mkOrder (s : OrderStatus) : Order :=
  { customer := 1
    restaurant := 2
    items := []
    status := s
    orderType := .delivery
    deliveryAddress := none
    pricing := basePricing
    payment := basePayment
    deliveryTracking := none
    timeline := [{ status := "pending", message := "created", timestamp := 0
                   updatedBy := none }]
    estimatedPreparationTime := 10
    estimatedDeliveryTime := none
    actualDeliveryTime := none
    customerNotes := none
    restaurantNotes := none
    promoCode := none
    isScheduled := false
    scheduledFor := none
    cancellationReason := none
    cancelledBy := none
    cancelledAt := none
    refundReason := none
    refundedBy := none }

/-- A concrete admin actor fixture. -/
def adminActor : Actor := { id := 9, role := .admin, restaurantId := none }

/-- A concrete restaurant-role actor fixture owning restaurant 2. -/
def restActor : Actor := { id := 4, role := .restaurant, restaurantId := some 2 }

/-- A concrete delivery-role actor fixture. -/
def delivActor : Actor := { id := 7, role := .delivery, restaurantId := none }

/-- A concrete delivery-tracking fixture assigned to actor 7. -/
def baseTracking : DeliveryTracking :=
  { status := "assigned", deliveryPerson := some 7
    estimatedDeliveryTime := none, actualDeliveryTime := none
    currentLocation := none, deliveryNotes := none, deliveryPhoto := none }

/-- An order fixture that carries delivery-tracking data. -/
def trackedOrder (s : OrderStatus) : Order :=
  { mkOrder s with deliveryTracking := some baseTracking }

/-- An order fixture whose stored payment intent id is pi_1, in the given
payment status. -/
def intentOrder (ps : PaymentStatus) : Order :=
  { mkOrder .confirmed with payment :=
    { basePayment with status := ps, stripePaymentIntentId := some "pi_1" } }

/-- The surcharge of one selected option, resolved through the same
lookups calculatePrice performs; 0 when the name does not resolve
(unknown names are skipped by the source loop). -/
def optionSurcharge (m : MenuItem) (customizationName optionName : String) : ℚ :=
  match m.customizations.find? (fun cfg => cfg.name == customizationName) with
  | some cfg =>
    match cfg.options.find? (fun opt => opt.name == optionName) with
    | some opt => opt.price
    | none => 0
  | none => 0

/-- Spec-side statement of the surcharge total: the sum, over the chosen
customizations, of the surcharges of the selected options. -/
def surchargeSum (m : MenuItem) (reqs : List ReqCustomization) : ℚ :=
  (reqs.map (fun c =>
    (c.selectedOptions.map (fun n => optionSurcharge m c.name n)).sum)).sum

/-- A concrete active, open restaurant fixture: minimum order 15, delivery
fee 3, owned restaurant id 2. -/
def sampleRestaurant : Restaurant :=
  { id := 2, owner := 4, deliveryFee := 3, minimumOrder := 15, deliveryRadius := 5
    operatingHours := [{ day := "monday", openTime := "09:00", closeTime := "22:00"
                         isClosed := false }]
    isActive := true, isOpen := true }

/-- The sample restaurant with the minimum order raised to exactly the
sample cart subtotal. -/
def exactMinRestaurant : Restaurant := { sampleRestaurant with minimumOrder := 20 }

/-- The sample restaurant with a minimum order above the sample cart
subtotal. -/
def belowMinRestaurant : Restaurant := { sampleRestaurant with minimumOrder := 30 }

/-- A concrete available menu item fixture priced at 20. -/
def sampleMenuItem : MenuItem :=
  { id := 11, restaurant := 2, name := "Burger", price := 20, discountPercentage := 0
    customizations := [], isAvailable := true, preparationTime := 15 }

/-- A concrete line-item request for one sampleMenuItem. -/
def sampleItemReq : OrderItemRequest :=
  { menuItem := 11, name := none, quantity := 1, customizations := []
    specialInstructions := none }

/-- A concrete delivery address fixture. -/
def sampleAddr : Address := { lat := 1, lng := 1 }

/-- The order the create-order stage builds for the sample fixtures: cart
subtotal 20, tax 8 percent, delivery fee 3, service fee 2 percent, total
exactly 25. -/
def c4order : Order :=
  { customer := 1, restaurant := 2
    items := [{ menuItem := 11, name := "Burger", price := 20, quantity := 1
                customizations := [], specialInstructions := "", subtotal := 20 }]
    status := .pending, orderType := .delivery, deliveryAddress := some sampleAddr
    pricing := { subtotal := 20, tax := 8 / 5, deliveryFee := 3, serviceFee := 2 / 5
                 tip := 0, discount := 0, total := 25 }
    payment := basePayment
    deliveryTracking := none, timeline := [], estimatedPreparationTime := 15
    estimatedDeliveryTime := some 35, actualDeliveryTime := none
    customerNotes := none, restaurantNotes := none, promoCode := none
    isScheduled := false, scheduledFor := none, cancellationReason := none
    cancelledBy := none, cancelledAt := none, refundReason := none
    refundedBy := none }

/-- The pre-save hook only ever appends to the timeline: the status field is
preserved by saveOrder. -/
theorem saveOrder_status (origStatus : OrderStatus) (now : Nat) (o : Order) :
    (saveOrder origStatus now o).status = o.status := by
  unfold saveOrder
  split <;> rfl

/-- Claim C7: canBeCancelled returns false exactly when the status is one of
picked_up, on_the_way, delivered, cancelled, refunded, and true otherwise;
and the cancel operation succeeds only when canBeCancelled holds, recording
status cancelled together with reason, actor and timestamp, while rejecting
every order whose canBeCancelled is false. -/
theorem cancel_requires_cancellable :
    (∀ o : Order, o.canBeCancelled = false ↔
        (o.status = .picked_up ∨ o.status = .on_the_way ∨
         o.status = .delivered ∨ o.status = .cancelled ∨
         o.status = .refunded)) ∧
    (∀ (a : Actor) (reason : String) (o : Order) (now : Nat),
        (cancelOrder a reason (some o) now).1.isOk = true →
          o.canBeCancelled = true ∧
          ∃ o2, (cancelOrder a reason (some o) now).2 = some o2 ∧
            o2.status = .cancelled ∧
            o2.cancellationReason = some reason ∧
            o2.cancelledBy = some a.id ∧
            o2.cancelledAt = some now) ∧
    (∀ (a : Actor) (reason : String) (o : Order) (now : Nat),
        o.canBeCancelled = false →
          (cancelOrder a reason (some o) now).1.isOk = false) := by
  refine ⟨?_, ?_, ?_⟩
  · intro o
    cases ho : o.status <;>
      simp only [Order.canBeCancelled, nonCancellableStatuses, ho] <;> decide
  · intro a reason o now h
    unfold cancelOrder at h
    by_cases hr : reason = ""
    · simp [hr, Except.isOk, Except.toBool] at h
    · simp only [hr, if_false, ite_false, if_neg hr] at h
      by_cases hauth : (o.customer = a.id ∨ a.role = .admin ∨
          (a.role = .restaurant ∧ a.restaurantId = some o.restaurant))
      · by_cases hcb : o.canBeCancelled = true
        · refine ⟨hcb, ?_⟩
          unfold cancelOrder
          simp only [if_neg hr]
          rw [if_neg (not_not_intro hauth), if_neg (not_not_intro hcb)]
          refine ⟨saveOrder o.status now _, rfl, ?_, ?_, ?_, ?_⟩ <;>
            · unfold saveOrder
              split <;> rfl
        · rw [if_neg (not_not_intro hauth), if_pos hcb] at h
          simp [Except.isOk, Except.toBool] at h
      · rw [if_pos hauth] at h
        simp [Except.isOk, Except.toBool] at h
  · intro a reason o now hcb
    unfold cancelOrder
    by_cases hr : reason = ""
    · simp [hr, Except.isOk, Except.toBool]
    · simp only [if_neg hr]
      by_cases hauth : (o.customer = a.id ∨ a.role = .admin ∨
          (a.role = .restaurant ∧ a.restaurantId = some o.restaurant))
      · rw [if_neg (not_not_intro hauth),
            if_pos (by simp [hcb] : ¬ o.canBeCancelled = true)]
        simp [Except.isOk, Except.toBool]
      · rw [if_pos hauth]
        simp [Except.isOk, Except.toBool]

/-- Witness for cancel_requires_cancellable: a delivered order is not
cancellable and its cancellation is rejected. -/
theorem cancel_requires_cancellable_witness :
    (mkOrder .delivered).canBeCancelled = false ∧
    (cancelOrder adminActor "too late" (some (mkOrder .delivered)) 5).1.isOk = false :=
  ⟨by decide,
   cancel_requires_cancellable.2.2 adminActor "too late" (mkOrder .delivered) 5
     (by decide)⟩


/-- Claim C1: a status mutation through the status-update route appends two
timeline entries, not one: the handler pushes its own entry and the
pre-save hook pushes a second one for the same status change (the cancel
route behaves the same way).  Starting from a one-entry timeline, both
operations leave three entries. -/
theorem status_update_appends_two_timeline_entries :
    ((updateOrderStatus adminActor none .confirmed none (some (mkOrder .pending)) 7).map
        (fun o => o.timeline.length) = .ok 3) ∧
    ((cancelOrder adminActor "changed my mind" (some (mkOrder .pending)) 7).2.map
        (fun o => o.timeline.length) = some 3) ∧
    (mkOrder .pending).timeline.length = 1 :=
  ⟨rfl, rfl, rfl⟩

/-- Claim C2, counterexample: the restaurant status route moves a delivered
order back to confirmed, and the admin status route moves a cancelled
order back to pending — transitions are neither monotonic nor
terminal-preserving. -/
theorem status_transition_not_monotonic :
    ((updateOrderStatus restActor (some 2) .confirmed none (some (mkOrder .delivered)) 9).map
        (fun o => o.status) = .ok .confirmed) ∧
    ((adminUpdateOrderStatus 9 .pending none (some (mkOrder .cancelled)) 9).map
        (fun o => o.status) = .ok .pending) :=
  ⟨rfl, rfl⟩

/-- Claim C2, amended: the status-update operations validate only that the
requested target lies in a role-specific list and never consult the
current status, so any listed target — backwards or out of a terminal
state — is accepted; only assign-delivery pins the current status (to
ready_for_pickup), and only the cancel endpoint applies the
cancellability check. -/
theorem status_update_ignores_current_status :
    (∀ (o : Order) (uid : Nat) (s : OrderStatus) (notes : Option String) (now : Nat),
        ∃ o2, adminUpdateOrderStatus uid s notes (some o) now = .ok o2 ∧
          o2.status = s) ∧
    (∀ (o : Order) (a : Actor) (rid : Option Nat) (s : OrderStatus)
        (notes : Option String) (now : Nat),
        a.role = .admin → s ∈ restaurantStatusTargets →
        ∃ o2, updateOrderStatus a rid s notes (some o) now = .ok o2 ∧
          o2.status = s) ∧
    (∀ (o : Order) (dt : DeliveryTracking) (a : Actor) (s : OrderStatus)
        (loc : Option (ℚ × ℚ)) (notes photo : Option String) (now : Nat),
        a.role = .delivery → s ∈ deliveryStatusTargets →
        o.deliveryTracking = some dt → dt.deliveryPerson = some a.id →
        ∃ o2, updateDeliveryStatus a s loc notes photo (some o) now = .ok o2 ∧
          o2.status = s) ∧
    (∀ (a : Actor) (o : Order) (now : Nat) (o2 : Order),
        assignDelivery a (some o) now = .ok o2 →
          o.status = .ready_for_pickup ∧ o2.status = .picked_up) := by
  refine ⟨?_, ?_, ?_, ?_⟩
  · intro o uid s notes now
    exact ⟨_, rfl, by unfold saveOrder; split <;> rfl⟩
  · intro o a rid s notes now ha hs
    unfold updateOrderStatus
    rw [if_neg (not_not_intro (Or.inr ha)), if_neg (not_not_intro hs)]
    simp only []
    rw [if_neg (fun hc => by simp [ha] at hc)]
    exact ⟨_, rfl, by unfold saveOrder; split <;> rfl⟩
  · intro o dt a s loc notes photo now ha hs hdt hdp
    unfold updateDeliveryStatus
    rw [if_neg (not_not_intro ha), if_neg (not_not_intro hs)]
    simp only []
    simp only [hdt]
    simp only [hdp]
    rw [if_neg (not_not_intro trivial)]
    exact ⟨_, rfl, by rw [saveOrder_status]⟩
  · intro a o now o2 h
    unfold assignDelivery at h
    by_cases hrole : (a.role = .admin ∨ a.role = .delivery)
    · rw [if_neg (not_not_intro hrole)] at h
      simp only [] at h
      by_cases hot : o.orderType = .delivery
      · rw [if_neg (not_not_intro hot)] at h
        by_cases hst : o.status = .ready_for_pickup
        · refine ⟨hst, ?_⟩
          rw [if_neg (not_not_intro hst)] at h
          cases hdt : o.deliveryTracking with
          | none => rw [hdt] at h; exact Except.noConfusion h
          | some dt =>
            rw [hdt] at h
            simp only [] at h
            simp only [Except.ok.injEq] at h
            subst h
            unfold saveOrder
            split <;> rfl
        · rw [if_pos hst] at h; exact Except.noConfusion h
      · rw [if_pos hot] at h; exact Except.noConfusion h
    · rw [if_pos hrole] at h; exact Except.noConfusion h

/-- Witness for status_update_ignores_current_status: the restaurant route
cancels a delivered order, and the assigned courier rewinds a delivered
order to picked_up. -/
theorem status_update_ignores_current_status_witness :
    (∃ o2, updateOrderStatus adminActor none .cancelled none
        (some (mkOrder .delivered)) 3 = .ok o2 ∧ o2.status = .cancelled) ∧
    (∃ o2, updateDeliveryStatus delivActor .picked_up none none none
        (some (trackedOrder .delivered)) 3 = .ok o2 ∧ o2.status = .picked_up) :=
  ⟨status_update_ignores_current_status.2.1 (mkOrder .delivered) adminActor none
      .cancelled none 3 (by decide) (by decide),
   status_update_ignores_current_status.2.2.1 (trackedOrder .delivered)
      baseTracking delivActor .picked_up none none none 3 (by decide) (by decide)
      (by rfl) (by rfl)⟩

/-- Claim C10: whenever cancellation is rejected — validation failure,
order not found, unauthorized caller, or a non-cancellable status — the
stored order state is exactly what was loaded: no partial mutation. -/
theorem cancel_rejection_is_atomic :
    ∀ (a : Actor) (reason : String) (odb : Option Order) (now : Nat)
      (e : ApiError) (odb2 : Option Order),
      cancelOrder a reason odb now = (.error e, odb2) → odb2 = odb := by
  intro a reason odb now e odb2 h
  unfold cancelOrder at h
  by_cases hr : reason = ""
  · rw [if_pos hr] at h
    injection h with h1 h2
    exact h2.symm
  · rw [if_neg hr] at h
    cases odb with
    | none =>
      injection h with h1 h2
      exact h2.symm
    | some o =>
      simp only [] at h
      by_cases hauth : (o.customer = a.id ∨ a.role = .admin ∨
          (a.role = .restaurant ∧ a.restaurantId = some o.restaurant))
      · by_cases hcb : o.canBeCancelled = true
        · rw [if_neg (not_not_intro hauth), if_neg (not_not_intro hcb)] at h
          injection h with h1 h2
          exact Except.noConfusion h1
        · rw [if_neg (not_not_intro hauth), if_pos hcb] at h
          injection h with h1 h2
          exact h2.symm
      · rw [if_pos hauth] at h
        injection h with h1 h2
        exact h2.symm

/-- Witness for cancel_rejection_is_atomic: cancelling a delivered order is
rejected and the stored order is untouched. -/
theorem cancel_rejection_is_atomic_witness :
    (cancelOrder adminActor "late" (some (mkOrder .delivered)) 5).2 =
      some (mkOrder .delivered) :=
  cancel_rejection_is_atomic adminActor "late" (some (mkOrder .delivered)) 5
    (.badRequest "Order cannot be cancelled at this stage")
    ((cancelOrder adminActor "late" (some (mkOrder .delivered)) 5).2) (by rfl)

/-- saveOrder leaves the payment sub-record unchanged. -/
theorem saveOrder_payment (origStatus : OrderStatus) (now : Nat) (o : Order) :
    (saveOrder origStatus now o).payment = o.payment := by
  unfold saveOrder
  split <;> rfl

/-- Field equations of the payment_intent.succeeded mutation: it preserves
the stored intent id, always ends with payment status completed, and maps
the order status through the pending-to-confirmed promotion. -/
theorem applyPaymentSuccess_fields (c : Option String) (now : Nat) (o : Order) :
    (applyPaymentSuccess c now o).payment.stripePaymentIntentId =
        o.payment.stripePaymentIntentId ∧
    (applyPaymentSuccess c now o).payment.status = .completed ∧
    (applyPaymentSuccess c now o).status =
      (if o.status = .pending then .confirmed else o.status) := by
  unfold applyPaymentSuccess
  simp only []
  split
  next h =>
    refine ⟨?_, ?_, ?_⟩
    · rw [saveOrder_payment]
    · rw [saveOrder_payment]
    · rw [saveOrder_status]
  next h =>
    refine ⟨?_, ?_, ?_⟩
    · rw [saveOrder_payment]
    · rw [saveOrder_payment]
    · rw [saveOrder_status]

/-- updateFirst on the empty store. -/
theorem updateFirst_nil (p : Order → Bool) (f : Order → Order) :
    updateFirst p f [] = [] := rfl

/-- updateFirst on a cons cell. -/
theorem updateFirst_cons (p : Order → Bool) (f : Order → Order)
    (o : Order) (rest : List Order) :
    updateFirst p f (o :: rest) =
      if p o = true then f o :: rest else o :: updateFirst p f rest := rfl

/-- Applying g after f through the find-one-and-save pattern leaves the
(status, payment status) projection unchanged, provided f preserves the
match and g fixes the projection on f's image. -/
theorem updateFirst_proj_stable (p : Order → Bool) (f g : Order → Order)
    (hpres : ∀ o, p o = true → p (f o) = true)
    (hproj : ∀ o, p o = true →
      (g (f o)).status = (f o).status ∧
      (g (f o)).payment.status = (f o).payment.status) :
    ∀ db : List Order,
      (updateFirst p g (updateFirst p f db)).map
          (fun o => (o.status, o.payment.status)) =
        (updateFirst p f db).map (fun o => (o.status, o.payment.status)) := by
  intro db
  induction db with
  | nil => rfl
  | cons o rest ih =>
    rw [updateFirst_cons]
    by_cases hp : p o = true
    · rw [if_pos hp, updateFirst_cons, if_pos (hpres o hp)]
      simp only [List.map_cons]
      obtain ⟨h1, h2⟩ := hproj o hp
      rw [h1, h2]
    · rw [if_neg hp, updateFirst_cons, if_neg hp]
      simp only [List.map_cons]
      rw [ih]

/-- Claim C8: delivering the same payment_intent.succeeded event twice is
idempotent on the matched order's status and payment status — the second
application changes neither projection anywhere in the store. -/
theorem payment_webhook_idempotent :
    ∀ (pid : String) (c : Option String) (now now2 : Nat) (db : List Order),
      (handlePaymentSuccess pid c now2 (handlePaymentSuccess pid c now db)).map
          (fun o => (o.status, o.payment.status)) =
        (handlePaymentSuccess pid c now db).map
          (fun o => (o.status, o.payment.status)) := by
  intro pid c now now2 db
  unfold handlePaymentSuccess
  refine updateFirst_proj_stable _ _ _ ?_ ?_ db
  · intro o hp
    unfold paymentIntentMatches at hp ⊢
    rw [(applyPaymentSuccess_fields c now o).1]
    exact hp
  · intro o hp
    constructor
    · rw [(applyPaymentSuccess_fields c now2 (applyPaymentSuccess c now o)).2.2]
      have hs := (applyPaymentSuccess_fields c now o).2.2
      by_cases h : o.status = .pending
      · rw [hs, if_pos h]
        simp
      · rw [hs, if_neg h]
        simp [h]
    · rw [(applyPaymentSuccess_fields c now2 (applyPaymentSuccess c now o)).2.1,
          (applyPaymentSuccess_fields c now o).2.1]

/-- Claim C9, counterexample: the refund.created webhook handler marks an
order refunded even though its payment status is pending, not completed —
the completed-only rule holds for the refund endpoint but not for the
webhook path. -/
theorem refund_webhook_ignores_payment_state :
    ((handleRefundCreated "pi_1" 10 3 [intentOrder .pending]).map
        (fun o => o.payment.status) = [PaymentStatus.refunded]) ∧
    (intentOrder .pending).payment.status = PaymentStatus.pending :=
  ⟨rfl, rfl⟩

/-- Claim C9, amended: the refund endpoint applies a refund only when the
payment status is completed and otherwise rejects leaving the order
unmodified, while the refund.created webhook handler sets the refunded
payment state on any matched order regardless of its prior payment
status. -/
theorem refund_endpoint_requires_completed :
    (∀ (a : Actor) (reason : Option String) (sr : Except Unit ℚ) (o : Order)
        (now : Nat) (u : Unit),
        (refundOrder a reason sr (some o) now).1 = .ok u →
          o.payment.status = .completed) ∧
    (∀ (a : Actor) (reason : Option String) (sr : Except Unit ℚ) (o : Order)
        (now : Nat),
        ¬ o.payment.status = .completed →
          (refundOrder a reason sr (some o) now).1.isOk = false ∧
          (refundOrder a reason sr (some o) now).2 = some o) ∧
    (∀ (amount : ℚ) (now : Nat) (o : Order),
        (applyRefundCreated amount now o).payment.status = .refunded) := by
  refine ⟨?_, ?_, ?_⟩
  · intro a reason sr o now u h
    unfold refundOrder at h
    simp only [] at h
    by_cases hauth : (o.customer = a.id ∨ a.role = .admin)
    · by_cases hps : o.payment.status = .completed
      · exact hps
      · rw [if_neg (not_not_intro hauth), if_pos hps] at h
        exact Except.noConfusion h
    · rw [if_pos hauth] at h
      exact Except.noConfusion h
  · intro a reason sr o now hps
    unfold refundOrder
    simp only []
    by_cases hauth : (o.customer = a.id ∨ a.role = .admin)
    · rw [if_neg (not_not_intro hauth), if_pos hps]
      exact ⟨rfl, rfl⟩
    · rw [if_pos hauth]
      exact ⟨rfl, rfl⟩
  · intro amount now o
    unfold applyRefundCreated
    simp only []
    rw [saveOrder_payment]

/-- Witness for refund_endpoint_requires_completed: refunding an order whose
payment is still pending is rejected and the order is unmodified. -/
theorem refund_endpoint_requires_completed_witness :
    (refundOrder adminActor none (.ok 10) (some (intentOrder .pending)) 4).1.isOk = false ∧
    (refundOrder adminActor none (.ok 10) (some (intentOrder .pending)) 4).2 =
      some (intentOrder .pending) :=
  refund_endpoint_requires_completed.2.1 adminActor none (.ok 10)
    (intentOrder .pending) 4 (by decide)

/-- Claim C3: the open-hours gate of order creation is broken — the guard
on an inactive or closed flag works, but for every restaurant with
isOpen and isActive set, isCurrentlyOpen raises a TypeError (Date has no
toLocaleLowerCase method), so the create-order handler answers 500 and no
order can ever be created through the open-hours path. -/
theorem isCurrentlyOpen_raises_type_error :
    (Restaurant.isCurrentlyOpen sampleRestaurant "12:00" = .error .typeError) ∧
    (createOrder (some sampleRestaurant) [sampleMenuItem] 1 [sampleItemReq]
        .delivery (some sampleAddr) (fun _ _ => true) "12:00" none none none 0
      = .error .serverError) ∧
    (Restaurant.isCurrentlyOpen { sampleRestaurant with isOpen := false } "12:00"
      = .ok false) ∧
    (createOrder (some { sampleRestaurant with isActive := false }) [sampleMenuItem]
        1 [sampleItemReq] .delivery (some sampleAddr) (fun _ _ => true) "12:00"
        none none none 0 = .error (.notFound "Restaurant not found or inactive")) :=
  ⟨rfl, rfl, rfl, rfl⟩

/-- The create-order stage evaluated on the sample fixtures yields exactly
c4order. -/
theorem c4order_eval :
    createOrderAfterGates sampleRestaurant [sampleMenuItem] 1 [sampleItemReq]
      .delivery (some sampleAddr) none none none 0 = .ok c4order := by
  simp [createOrderAfterGates, validateItems, findMenuItem, sampleRestaurant,
        sampleMenuItem, sampleItemReq, MenuItem.calculatePrice,
        MenuItem.discountedPrice, round2, round_eq, c4order, basePayment,
        calculateEstimatedDeliveryTime]
  norm_num

/-- The item-validation loop evaluated on the sample fixtures. -/
theorem c5val_eval :
    validateItems [sampleMenuItem] 2 [sampleItemReq] =
      .ok (c4order.items, 20, 15) := by
  simp [validateItems, findMenuItem, sampleMenuItem, sampleItemReq,
        MenuItem.calculatePrice, MenuItem.discountedPrice, round2, round_eq,
        c4order]
  norm_num

/-- Claim C4: every order built by the create-order stage prices as
subtotal + 8 percent tax + delivery fee (the restaurant's flat fee for
delivery orders, 0 for pickup) + 2 percent service fee - discount; on the
spec's example (minimum 15, fee 3, cart subtotal 20) the total is exactly
25. -/
theorem order_total_formula :
    (∀ (r : Restaurant) (catalog : List MenuItem) (cid : Nat)
        (items : List OrderItemRequest) (ot : OrderType) (addr : Option Address)
        (cnotes : Option String) (sched : Option Nat) (promo : Option String)
        (now : Nat) (o : Order),
        createOrderAfterGates r catalog cid items ot addr cnotes sched promo now =
            .ok o →
          o.pricing.tax = o.pricing.subtotal * (8 / 100 : ℚ) ∧
          o.pricing.serviceFee = o.pricing.subtotal * (2 / 100 : ℚ) ∧
          o.pricing.deliveryFee = (if ot = .delivery then r.deliveryFee else 0) ∧
          o.pricing.total = o.pricing.subtotal + o.pricing.tax +
            o.pricing.deliveryFee + o.pricing.serviceFee - o.pricing.discount) ∧
    ((createOrderAfterGates sampleRestaurant [sampleMenuItem] 1 [sampleItemReq]
        .delivery (some sampleAddr) none none none 0).map
      (fun o => o.pricing.total) = .ok 25) := by
  constructor
  · intro r catalog cid items ot addr cnotes sched promo now o h
    unfold createOrderAfterGates at h
    cases hv : validateItems catalog r.id items with
    | error e => rw [hv] at h; exact Except.noConfusion h
    | ok res =>
      obtain ⟨vitems, st, prep⟩ := res
      rw [hv] at h
      simp only [] at h
      by_cases hmin : st < r.minimumOrder
      · rw [if_pos hmin] at h
        exact Except.noConfusion h
      · rw [if_neg hmin] at h
        simp only [Except.ok.injEq] at h
        subst h
        exact ⟨rfl, rfl, rfl, rfl⟩
  · rw [c4order_eval]
    rfl

/-- Witness for order_total_formula: the pricing formula holds of the
concrete created sample order. -/
theorem order_total_formula_witness :
    c4order.pricing.total = c4order.pricing.subtotal + c4order.pricing.tax +
      c4order.pricing.deliveryFee + c4order.pricing.serviceFee -
      c4order.pricing.discount :=
  (order_total_formula.1 sampleRestaurant [sampleMenuItem] 1 [sampleItemReq]
    .delivery (some sampleAddr) none none none 0 c4order c4order_eval).2.2.2

/-- A left fold whose body adds a per-element contribution equals the
initial value plus the sum of the contributions. -/
theorem foldl_body_add {α : Type} (body : ℚ → α → ℚ) (g : α → ℚ)
    (hb : ∀ acc x, body acc x = acc + g x) (l : List α) :
    ∀ init : ℚ, l.foldl body init = init + (l.map g).sum := by
  induction l with
  | nil => intro init; simp
  | cons x xs ih =>
    intro init
    rw [List.foldl_cons, hb, ih, List.map_cons, List.sum_cons, add_assoc]

/-- The calculatePrice accumulation loop computes exactly the discounted
base price plus the sum of the resolved option surcharges, rounded once
at the end. -/
theorem calculatePrice_eq_surchargeSum (m : MenuItem) (reqs : List ReqCustomization) :
    m.calculatePrice reqs = round2 (m.discountedPrice + surchargeSum m reqs) := by
  unfold MenuItem.calculatePrice surchargeSum
  simp only []
  congr 1
  refine foldl_body_add _
    (fun c => (c.selectedOptions.map (fun n => optionSurcharge m c.name n)).sum)
    ?_ reqs m.discountedPrice
  intro acc c
  cases hc : m.customizations.find? (fun cfg => cfg.name == c.name) with
  | none =>
    simp only [hc]
    have hz : c.selectedOptions.map (fun n => optionSurcharge m c.name n) =
        c.selectedOptions.map (fun _ => (0 : ℚ)) := by
      refine List.map_congr_left ?_
      intro n _
      unfold optionSurcharge
      rw [hc]
    rw [hz]
    simp
  | some cfg =>
    simp only [hc]
    rw [foldl_body_add _ (fun n => optionSurcharge m c.name n) ?_ c.selectedOptions acc]
    intro acc2 n
    unfold optionSurcharge
    rw [hc]
    simp only []
    cases ho : cfg.options.find? (fun opt => opt.name == n) with
    | none => exact (add_zero acc2).symm
    | some opt => rfl

/-- Soundness of the item-validation loop: the accumulated subtotal is the
sum over the produced line items of price times quantity, and every
produced line item snapshots the price calculatePrice assigns to the
looked-up menu item with the chosen customizations. -/
theorem validateItems_sound (catalog : List MenuItem) (rid : Nat) :
    ∀ (reqs : List OrderItemRequest) (vitems : List OrderItem) (st : ℚ) (prep : Nat),
      validateItems catalog rid reqs = .ok (vitems, st, prep) →
        st = (vitems.map (fun it => it.price * (it.quantity : ℚ))).sum ∧
        ∀ it ∈ vitems, ∃ m, findMenuItem catalog it.menuItem = some m ∧
          it.price = m.calculatePrice it.customizations := by
  intro reqs
  induction reqs with
  | nil =>
    intro vitems st prep h
    unfold validateItems at h
    simp only [Except.ok.injEq, Prod.mk.injEq] at h
    obtain ⟨h1, h2, h3⟩ := h
    subst h1
    subst h2
    simp
  | cons item rest ih =>
    intro vitems st prep h
    unfold validateItems at h
    cases hf : findMenuItem catalog item.menuItem with
    | none => rw [hf] at h; exact Except.noConfusion h
    | some mi =>
      rw [hf] at h
      simp only [] at h
      by_cases hav : mi.isAvailable = true
      · rw [if_neg (not_not_intro hav)] at h
        by_cases hr : mi.restaurant = rid
        · rw [if_neg (not_not_intro hr)] at h
          cases hrec : validateItems catalog rid rest with
          | error e => rw [hrec] at h; exact Except.noConfusion h
          | ok res =>
            obtain ⟨vs, sts, preps⟩ := res
            rw [hrec] at h
            simp only [Except.ok.injEq, Prod.mk.injEq] at h
            obtain ⟨h1, h2, h3⟩ := h
            subst h1
            subst h2
            obtain ⟨ihsum, ihmem⟩ := ih vs sts preps hrec
            constructor
            · rw [List.map_cons, List.sum_cons, ihsum]
            · intro it hit
              rcases List.mem_cons.mp hit with hhead | hmem
              · subst hhead
                have hid : mi.id = item.menuItem := by
                  have := List.find?_some hf
                  simpa using this
                exact ⟨mi, by simp only []; rw [hid]; exact hf, rfl⟩
              · exact ihmem it hmem
        · rw [if_pos hr] at h
          exact Except.noConfusion h
      · rw [if_pos hav] at h
        exact Except.noConfusion h

/-- Claim C5: the computed subtotal is the sum over line items of unit
price times quantity, where each unit price is the menu item's discounted
base price plus the surcharges of the selected customization options,
rounded to 2 decimal places. -/
theorem subtotal_is_sum_of_line_items :
    (∀ (m : MenuItem) (reqs : List ReqCustomization),
        m.calculatePrice reqs = round2 (m.discountedPrice + surchargeSum m reqs)) ∧
    (∀ (catalog : List MenuItem) (rid : Nat) (reqs : List OrderItemRequest)
        (vitems : List OrderItem) (st : ℚ) (prep : Nat),
        validateItems catalog rid reqs = .ok (vitems, st, prep) →
          st = (vitems.map (fun it => it.price * (it.quantity : ℚ))).sum ∧
          ∀ it ∈ vitems, ∃ m, findMenuItem catalog it.menuItem = some m ∧
            it.price = m.calculatePrice it.customizations) :=
  ⟨calculatePrice_eq_surchargeSum, fun catalog rid => validateItems_sound catalog rid⟩

/-- Witness for subtotal_is_sum_of_line_items: evaluated on the sample
fixtures, the accumulated subtotal 20 is the sum of price times quantity
over the produced line items. -/
theorem subtotal_is_sum_of_line_items_witness :
    (20 : ℚ) = (c4order.items.map (fun it => it.price * (it.quantity : ℚ))).sum :=
  (subtotal_is_sum_of_line_items.2 [sampleMenuItem] 2 [sampleItemReq]
    c4order.items 20 15 c5val_eval).1

/-- Claim C6: after item validation, a subtotal strictly below the
restaurant's minimum order is rejected with the below-minimum error and
no order is produced, while a subtotal exactly equal to the minimum
passes the gate and an order is created. -/
theorem minimum_order_gate :
    ∀ (r : Restaurant) (catalog : List MenuItem) (cid : Nat)
      (items : List OrderItemRequest) (ot : OrderType) (addr : Option Address)
      (cnotes : Option String) (sched : Option Nat) (promo : Option String)
      (now : Nat) (vitems : List OrderItem) (st : ℚ) (prep : Nat),
      validateItems catalog r.id items = .ok (vitems, st, prep) →
        (st < r.minimumOrder →
          createOrderAfterGates r catalog cid items ot addr cnotes sched promo now =
            .error (.badRequest ("Minimum order amount is $" ++
              toString r.minimumOrder))) ∧
        (st = r.minimumOrder →
          ∃ o, createOrderAfterGates r catalog cid items ot addr cnotes sched promo
              now = .ok o ∧ o.pricing.subtotal = st) := by
  intro r catalog cid items ot addr cnotes sched promo now vitems st prep h
  unfold createOrderAfterGates
  rw [h]
  simp only []
  constructor
  · intro hlt
    rw [if_pos hlt]
  · intro heq
    rw [if_neg (by rw [heq]; exact lt_irrefl _)]
    exact ⟨_, rfl, rfl⟩

/-- Witness for minimum_order_gate: with the sample cart subtotal 20, a
minimum order of 30 rejects the request, and a minimum order of exactly
20 accepts it. -/
theorem minimum_order_gate_witness :
    (createOrderAfterGates belowMinRestaurant [sampleMenuItem] 1 [sampleItemReq]
        .delivery (some sampleAddr) none none none 0 =
      .error (.badRequest ("Minimum order amount is $" ++
        toString belowMinRestaurant.minimumOrder))) ∧
    ((createOrderAfterGates exactMinRestaurant [sampleMenuItem] 1 [sampleItemReq]
        .delivery (some sampleAddr) none none none 0).isOk = true) := by
  constructor
  · exact (minimum_order_gate belowMinRestaurant [sampleMenuItem] 1 [sampleItemReq]
      .delivery (some sampleAddr) none none none 0 c4order.items 20 15 c5val_eval).1
      (by norm_num [belowMinRestaurant, sampleRestaurant])
  · obtain ⟨o, ho, _⟩ := (minimum_order_gate exactMinRestaurant [sampleMenuItem] 1
      [sampleItemReq] .delivery (some sampleAddr) none none none 0 c4order.items
      20 15 c5val_eval).2 (by norm_num [exactMinRestaurant, sampleRestaurant])
    rw [ho]
    rfl
